import Mathlib

/-!
Shallow embedding of the core of the `managment-app` productivity backend:
tag ownership validation (`_load_tags`), tag-association reconciliation
(`set_task_tags` / `set_note_tags` / `set_collection_tags`), the containment
policy enforced by the task and note services, the four per-entity searches
and the global search aggregator.

SQL statements are modelled over in-memory row lists; the table rows are kept
in store order and `ORDER BY x DESC` is modelled as a stable descending sort
over that order (SQL leaves the relative order of equal keys to the engine;
stable-by-store-order is the deterministic model used here).  `ILIKE` is
modelled by SQL LIKE pattern semantics (wildcards `%` and `_`, no ESCAPE
clause, exactly as the source's unescaped `f"%{query}%"` patterns) over
ASCII-lowercased character codes.  Python truthiness tests on optional
filter arguments (`if status:`, `if collection_id:`) are modelled explicitly.
-/

namespace MgmtApp

/-! ## Python string helpers -/

/-- ASCII whitespace recognised by Python `str.strip()`. -/
def pyIsSpace (c : Char) : Bool :=
  c.toNat = 32 || c.toNat = 9 || c.toNat = 10 || c.toNat = 13 ||
    c.toNat = 11 || c.toNat = 12

/-- Strip leading and trailing whitespace from a character list. -/
def stripChars (cs : List Char) : List Char :=
  ((cs.dropWhile pyIsSpace).reverse.dropWhile pyIsSpace).reverse

/-- Python `str.strip()` with no argument (whitespace, ASCII fragment). -/
def pyStrip (s : String) : String :=
  ⟨stripChars s.data⟩

/-! ## SQL `ILIKE`

The repositories build `search_term = f"%{query}%"` and pass it to
`column.ilike(search_term)` without escaping, so `%` and `_` inside the
user's query act as LIKE wildcards.  `ILIKE` compares the lowercased
pattern against the lowercased column value.  We model the ASCII lowering
`LOWER` applies and run LIKE over the resulting character codes
(`%` is code 37, `_` is code 95). -/

/-- ASCII lowercasing of one character code. -/
def lowerN (n : Nat) : Nat :=
  if 65 ≤ n ∧ n ≤ 90 then n + 32 else n

/-- The ASCII-lowercased character codes of a string. -/
def lowerCodes (s : String) : List Nat :=
  s.data.map (fun c => lowerN c.toNat)

/-- SQL LIKE pattern matching over character codes: `37` (`%`) matches any
run of characters, `95` (`_`) matches exactly one character, anything else
matches itself.  No ESCAPE clause (the source emits none).  The recursion
is lexicographic in (pattern, string); an explicit fuel argument keeps it
structural so that concrete instances compute, `likeMatch` below supplies
sufficient fuel, and `likeMatch_cons_cons` and friends recover the natural
recursive equations. -/
def likeMatchF : Nat → List Nat → List Nat → Bool
  | 0, _, _ => false
  | _ + 1, [], [] => true
  | _ + 1, [], _ :: _ => false
  | f + 1, p :: ps, [] => if p == 37 then likeMatchF f ps [] else false
  | f + 1, p :: ps, c :: s =>
    if p == 37 then likeMatchF f ps (c :: s) || likeMatchF f (p :: ps) s
    else (p == 95 || c == p) && likeMatchF f ps s

/-- SQL LIKE pattern matching (pattern first, subject second). -/
def likeMatch (ps s : List Nat) : Bool :=
  likeMatchF (ps.length + s.length + 1) ps s

/-- SQLAlchemy `column.ilike(pattern)`. -/
def ilike (s pattern : String) : Bool :=
  likeMatch (lowerCodes pattern) (lowerCodes s)

/-- `column.ilike(pattern)` on a nullable column: SQL NULL never matches. -/
def ilikeOpt : Option String → String → Bool
  | none, _ => false
  | some s, pattern => ilike s pattern

/-- The pattern the repositories build: `search_term = f"%{query}%"`. -/
def searchTerm (query : String) : String :=
  "%" ++ query ++ "%"

/-- SQL `column = value` on a nullable integer column: NULL never matches. -/
def optIntEq : Option Int → Int → Bool
  | none, _ => false
  | some x, v => x == v

/-! ## Data model (`app/schemas/models`) -/

/-- `CollectionType` enum (`app/schemas/enums/collections_types.py`):
`mixed`, `tasks-only`, `notes-only`. -/
inductive CollectionType where
  | mixed
  | tasks_only
  | notes_only
deriving Repr, DecidableEq

/-- `Tag` row: `{id, user_id, title}` plus its `updated_at` timestamp
(timestamps are modelled as integers, only their order matters). -/
structure Tag where
  id : Int
  user_id : Int
  title : String
  updated_at : Int
deriving Repr, DecidableEq

/-- `Task` row with its (eagerly loaded) tag collection. -/
structure Task where
  id : Int
  user_id : Int
  collection_id : Option Int
  title : String
  description : Option String
  status : String
  priority : String
  updated_at : Int
  tags : List Tag
deriving Repr, DecidableEq

/-- `Note` row with its (eagerly loaded) tag collection. -/
structure Note where
  id : Int
  user_id : Int
  collection_id : Option Int
  title : String
  description : Option String
  updated_at : Int
  tags : List Tag
deriving Repr, DecidableEq

/-- `Collection` row with its (eagerly loaded) tag collection. -/
structure Collection where
  id : Int
  user_id : Int
  title : String
  description : Option String
  type : CollectionType
  updated_at : Int
  tags : List Tag
deriving Repr, DecidableEq

/-- SQLAlchemy instance lifecycle state, as inspected by
`_is_new_or_pending` (`app/api/repositories/_utils.py`). -/
inductive PersistState where
  | transient
  | pending
  | persistent
deriving Repr, DecidableEq

/-- `_is_new_or_pending(obj)`: `st.transient or st.pending`. -/
def _is_new_or_pending : PersistState → Bool
  | .transient => true
  | .pending => true
  | .persistent => false

/-! ## Errors (`HTTPException`s raised by the core) -/

/-- The error kinds the embedded core raises.  `badRequest` is HTTP 400
with a plain detail string, `tagsNotFound` is the HTTP 400 whose detail
lists the missing tag ids, `notFound` is HTTP 404. -/
inductive ApiError where
  | badRequest (detail : String)
  | tagsNotFound (missing : List Int)
  | notFound (detail : String)
deriving Repr, DecidableEq

/-- Decidable equality of embedded operation results, so that witnesses can
be checked by evaluation. -/
instance {ε α : Type} [DecidableEq ε] [DecidableEq α] :
    DecidableEq (Except ε α) := fun x y =>
  match x, y with
  | .error e, .error f =>
    match decEq e f with
    | isTrue h => isTrue (by rw [h])
    | isFalse h => isFalse (by intro hh; cases hh; exact h rfl)
  | .error _, .ok _ => isFalse (by intro hh; cases hh)
  | .ok _, .error _ => isFalse (by intro hh; cases hh)
  | .ok a, .ok b =>
    match decEq a b with
    | isTrue h => isTrue (by rw [h])
    | isFalse h => isFalse (by intro hh; cases hh; exact h rfl)

/-! ## Sorting

`ORDER BY key DESC` is modelled as a stable insertion sort (descending by
key, equal keys keep their store order); `missing = sorted(...)` in
`_load_tags` uses an ascending insertion sort on integers. -/

/-- Insert `x` into a descending-sorted list, before the first element
whose key is not larger (stable for equal keys). -/
def insertByDesc (key : α → Int) (x : α) : List α → List α
  | [] => [x]
  | y :: ys => if key y ≤ key x then x :: y :: ys else y :: insertByDesc key x ys

/-- Stable descending sort by an integer key. -/
def sortByDesc (key : α → Int) : List α → List α
  | [] => []
  | x :: xs => insertByDesc key x (sortByDesc key xs)

/-- Insert into an ascending-sorted integer list. -/
def insertAsc (x : Int) : List Int → List Int
  | [] => [x]
  | y :: ys => if x ≤ y then x :: y :: ys else y :: insertAsc x ys

/-- Python `sorted` on a list of integers. -/
def sortAsc : List Int → List Int
  | [] => []
  | x :: xs => insertAsc x (sortAsc xs)

/-- SQL `OFFSET skip LIMIT limit`, each applied only when provided. -/
def applyWindow (skip limit : Option Nat) (l : List α) : List α :=
  let l1 := match skip with
    | none => l
    | some n => l.drop n
  match limit with
  | none => l1
  | some n => l1.take n

/-! ## Tag ownership validator (`_load_tags`, `app/api/repositories/_utils.py`) -/

/-- One pass over the list keeping each value's first occurrence, with the
already-emitted values accumulated in `seen`. -/
def dedupFirstAux : List Int → List Int → List Int
  | _, [] => []
  | seen, x :: xs =>
    if seen.contains x then dedupFirstAux seen xs
    else x :: dedupFirstAux (x :: seen) xs

/-- `list(dict.fromkeys(tag_ids))`: de-duplicate preserving first-seen order. -/
def dedupFirst (l : List Int) : List Int :=
  dedupFirstAux [] l

/-- The rows returned by
`select(Tag).where(Tag.user_id == user_id, Tag.id.in_(ids))`
with `ids = list(dict.fromkeys(tag_ids))`. -/
def foundTags (db : List Tag) (user_id : Int) (tag_ids : List Int) : List Tag :=
  db.filter (fun t => t.user_id == user_id && (dedupFirst tag_ids).contains t.id)

/-- `_load_tags(session, user_id, tag_ids, require_all)`.  The store is the
list of tag rows (primary keys assumed distinct where a theorem needs it). -/
def _load_tags (db : List Tag) (user_id : Int) (tag_ids : List Int)
    (require_all : Bool) : Except ApiError (List Tag) :=
  let ids := dedupFirst tag_ids
  if ids.isEmpty then .ok []
  else
    let tags := foundTags db user_id tag_ids
    -- `len(tags) != len(set(ids))`; `ids` is duplicate-free, so
    -- `len(set(ids))` equals `ids.length`
    if require_all && !(tags.length == ids.length) then
      let found := tags.map Tag.id
      let missing := sortAsc (ids.filter (fun i => !(found.contains i)))
      .error (.tagsNotFound missing)
    else .ok tags

/-! ## Tag association reconciler
(`set_task_tags` / `set_note_tags` / `set_collection_tags`)

`storeTags` is the entity's current tag collection as the store would
deliver it on `db.refresh(entity, attribute_names=["tags"])`; `st` is the
SQLAlchemy instance state `inspect(entity)` reports. -/

/-- `TaskRepository.set_task_tags` (`tasks_repositories.py`). -/
def set_task_tags (db : List Tag) (storeTags : List Tag) (st : PersistState)
    (task : Task) (tag_ids : List Int) : Except ApiError Task :=
  match _load_tags db task.user_id tag_ids true with
  | .error e => .error e
  | .ok tags =>
    if _is_new_or_pending st then
      .ok { task with tags := tags }
    else
      -- `await self.db.refresh(task, attribute_names=["tags"])`
      let refreshed := { task with tags := storeTags }
      -- `task.tags.clear()`
      let cleared := { refreshed with tags := [] }
      -- `task.tags.extend(tags)`
      .ok { cleared with tags := cleared.tags ++ tags }

/-- `NoteRepository.set_note_tags` (`notes_repositories.py`). -/
def set_note_tags (db : List Tag) (storeTags : List Tag) (st : PersistState)
    (note : Note) (tag_ids : List Int) : Except ApiError Note :=
  match _load_tags db note.user_id tag_ids true with
  | .error e => .error e
  | .ok tags =>
    if _is_new_or_pending st then
      .ok { note with tags := tags }
    else
      let refreshed := { note with tags := storeTags }
      let cleared := { refreshed with tags := [] }
      .ok { cleared with tags := cleared.tags ++ tags }

/-- `CollectionRepository.set_collection_tags` (`collections_repositories.py`). -/
def set_collection_tags (db : List Tag) (storeTags : List Tag) (st : PersistState)
    (collection : Collection) (tag_ids : List Int) : Except ApiError Collection :=
  match _load_tags db collection.user_id tag_ids true with
  | .error e => .error e
  | .ok tags =>
    if _is_new_or_pending st then
      .ok { collection with tags := tags }
    else
      let refreshed := { collection with tags := storeTags }
      let cleared := { refreshed with tags := [] }
      .ok { cleared with tags := cleared.tags ++ tags }

/-! ## Containment policy (task/note services) -/

/-- `select(Collection).where(Collection.id == collection_id,
Collection.user_id == user_id)` with `scalar_one_or_none()`. -/
def get_collection_by_id_and_user (db : List Collection)
    (collection_id user_id : Int) : Option Collection :=
  db.find? (fun c => c.id == collection_id && c.user_id == user_id)

def collectionNotFoundError : ApiError :=
  .notFound "Collection not found or not owned by user"

def taskIntoNotesOnlyError : ApiError :=
  .badRequest "Cannot add a Task to a Collection of type notes-only."

def noteIntoTasksOnlyError : ApiError :=
  .badRequest "Cannot add a Note to a Collection of type tasks-only."

/-- The collection-validation stage of `TaskService.create_task_for_user`
and `TaskService.update_user_task` (`tasks_services.py`).  The guard is
Python `if task_create.collection_id:` — truthiness, so both `None` and
`0` skip the whole check. -/
def validate_task_collection (db : List Collection) (user_id : Int)
    (collection_id : Option Int) : Except ApiError Unit :=
  match collection_id with
  | none => .ok ()
  | some cid =>
    if cid == 0 then .ok ()
    else
      match get_collection_by_id_and_user db cid user_id with
      | none => .error collectionNotFoundError
      | some owned_collection =>
        if owned_collection.type == CollectionType.notes_only then
          .error taskIntoNotesOnlyError
        else .ok ()

/-- The collection-validation stage of `NoteService.create_note_for_user`
and `NoteService.update_user_note` (`notes_services.py`); same truthiness
guard, rejecting `tasks-only` collections. -/
def validate_note_collection (db : List Collection) (user_id : Int)
    (collection_id : Option Int) : Except ApiError Unit :=
  match collection_id with
  | none => .ok ()
  | some cid =>
    if cid == 0 then .ok ()
    else
      match get_collection_by_id_and_user db cid user_id with
      | none => .error collectionNotFoundError
      | some owned_collection =>
        if owned_collection.type == CollectionType.tasks_only then
          .error noteIntoTasksOnlyError
        else .ok ()

/-! ## Per-entity search (repository layer) -/

/-- The WHERE clause of `TaskRepository.search_tasks`: user scoping, the
truthiness-guarded `status` / `priority` / `collection_id` filters and the
`if query:` text condition `title ILIKE term OR description ILIKE term`. -/
def taskRowMatches (user_id : Int) (query : String)
    (status priority : Option String) (collection_id : Option Int)
    (t : Task) : Bool :=
  (t.user_id == user_id)
  && (match status with
      | some st => if st == "" then true else t.status == st
      | none => true)
  && (match priority with
      | some pr => if pr == "" then true else t.priority == pr
      | none => true)
  && (match collection_id with
      | some cid => if cid == 0 then true else optIntEq t.collection_id cid
      | none => true)
  && (if query == "" then true
      else ilike t.title (searchTerm query)
        || ilikeOpt t.description (searchTerm query))

/-- `TaskRepository.search_tasks` (`tasks_repositories.py`). -/
def search_tasks (db : List Task) (user_id : Int) (query : String)
    (status priority : Option String) (collection_id : Option Int)
    (skip limit : Option Nat) : List Task :=
  applyWindow skip limit
    (sortByDesc (fun t => t.updated_at)
      (db.filter (taskRowMatches user_id query status priority collection_id)))

/-- The WHERE clause of `NoteRepository.search_notes`: the collection
filter is guarded by `if collection_id is not None:` (not truthiness). -/
def noteRowMatches (user_id : Int) (query : String)
    (collection_id : Option Int) (n : Note) : Bool :=
  (n.user_id == user_id)
  && (match collection_id with
      | some cid => optIntEq n.collection_id cid
      | none => true)
  && (if query == "" then true
      else ilike n.title (searchTerm query)
        || ilikeOpt n.description (searchTerm query))

/-- `NoteRepository.search_notes` (`notes_repositories.py`). -/
def search_notes (db : List Note) (user_id : Int) (query : String)
    (collection_id : Option Int) (skip limit : Option Nat) : List Note :=
  applyWindow skip limit
    (sortByDesc (fun n => n.updated_at)
      (db.filter (noteRowMatches user_id query collection_id)))

/-- The WHERE clause of `CollectionRepository.search_collections`: the
type filter is guarded by `if type_filter is not None:`; text matching is
on `title` only. -/
def collectionRowMatches (user_id : Int) (query : String)
    (type_filter : Option CollectionType) (c : Collection) : Bool :=
  (c.user_id == user_id)
  && (match type_filter with
      | some tf => c.type == tf
      | none => true)
  && (if query == "" then true else ilike c.title (searchTerm query))

/-- `CollectionRepository.search_collections` (`collections_repositories.py`). -/
def search_collections (db : List Collection) (user_id : Int) (query : String)
    (type_filter : Option CollectionType) (skip limit : Option Nat) :
    List Collection :=
  applyWindow skip limit
    (sortByDesc (fun c => c.updated_at)
      (db.filter (collectionRowMatches user_id query type_filter)))

/-- The WHERE clause of `TagRepository.search_tags`: user scoping and the
`if query:` text condition on `title` only. -/
def tagRowMatches (user_id : Int) (query : String) (t : Tag) : Bool :=
  (t.user_id == user_id)
  && (if query == "" then true else ilike t.title (searchTerm query))

/-- `TagRepository.search_tags` (`tags_repositories.py`). -/
def search_tags (db : List Tag) (user_id : Int) (query : String)
    (skip limit : Option Nat) : List Tag :=
  applyWindow skip limit
    (sortByDesc (fun t => t.updated_at)
      (db.filter (tagRowMatches user_id query)))

/-! ## Per-entity search (service layer) -/

/-- The shared service-boundary precondition
`if not query or len(query.strip()) < 2:`. -/
def queryTooShort (query : String) : Bool :=
  query == "" || (pyStrip query).length < 2

def queryLengthError : ApiError :=
  .badRequest "Search query must be at least 2 characters long."

/-- `TaskService.search_user_tasks` (`tasks_services.py`). -/
def search_user_tasks (db : List Task) (user_id : Int) (query : String)
    (status priority : Option String) (collection_id : Option Int)
    (skip limit : Option Nat) : Except ApiError (List Task) :=
  if queryTooShort query then .error queryLengthError
  else .ok (search_tasks db user_id (pyStrip query)
    status priority collection_id skip limit)

/-- `NoteService.search_user_notes` (`notes_services.py`). -/
def search_user_notes (db : List Note) (user_id : Int) (query : String)
    (collection_id : Option Int) (skip limit : Option Nat) :
    Except ApiError (List Note) :=
  if queryTooShort query then .error queryLengthError
  else .ok (search_notes db user_id (pyStrip query) collection_id skip limit)

/-- `CollectionService.search_user_collections` (`collections_services.py`). -/
def search_user_collections (db : List Collection) (user_id : Int)
    (query : String) (type_filter : Option CollectionType)
    (skip limit : Option Nat) : Except ApiError (List Collection) :=
  if queryTooShort query then .error queryLengthError
  else .ok (search_collections db user_id (pyStrip query) type_filter skip limit)

/-- `TagService.search_user_tags` (`tags_services.py`). -/
def search_user_tags (db : List Tag) (user_id : Int) (query : String)
    (skip limit : Option Nat) : Except ApiError (List Tag) :=
  if queryTooShort query then .error queryLengthError
  else .ok (search_tags db user_id (pyStrip query) skip limit)

/-! ## Global search aggregator (`SearchService.global_search`) -/

/-- The four entity stores the aggregator fans out over. -/
structure SearchDB where
  tasks : List Task
  notes : List Note
  collections : List Collection
  tags : List Tag
deriving Repr, DecidableEq

/-- The `results` object of the response envelope. -/
structure SearchResults where
  tasks : List Task
  notes : List Note
  collections : List Collection
  tags : List Tag
deriving Repr, DecidableEq

/-- The response envelope `{query, results, total_count}`. -/
structure SearchEnvelope where
  query : String
  results : SearchResults
  total_count : Nat
deriving Repr, DecidableEq

/-- `asyncio.gather` over four already-determined sub-results: all four
must succeed, otherwise the first error (in argument order) is raised. -/
def gather4 (a : Except ApiError α) (b : Except ApiError β)
    (c : Except ApiError γ) (d : Except ApiError δ) :
    Except ApiError (α × β × γ × δ) := do
  let x ← a
  let y ← b
  let z ← c
  let w ← d
  pure (x, y, z, w)

/-- `SearchService.global_search` (`search_services.py`).  `limit_per_type`
is a natural number (the route constrains it to `ge=1, le=100`), so the
Python slice `[:limit_per_type]` is `List.take`.  The DTO conversion step
maps rows one-to-one and is omitted. -/
def global_search (db : SearchDB) (user_id : Int) (query : String)
    (limit_per_type : Nat) : Except ApiError SearchEnvelope :=
  if queryTooShort query then .error queryLengthError
  else
    let stripped_query := pyStrip query
    match gather4
      (search_user_tasks db.tasks user_id stripped_query none none none none none)
      (search_user_notes db.notes user_id stripped_query none none none)
      (search_user_collections db.collections user_id stripped_query none none none)
      (search_user_tags db.tags user_id stripped_query none none) with
    | .error e => .error e
    | .ok (tasks_results, notes_results, collections_results, tags_results) =>
      .ok {
        query := stripped_query
        results := {
          tasks := tasks_results.take limit_per_type
          notes := notes_results.take limit_per_type
          collections := collections_results.take limit_per_type
          tags := tags_results.take limit_per_type }
        total_count := tasks_results.length + notes_results.length
          + collections_results.length + tags_results.length }

/-! ## Spec-side matching predicate

The spec describes matching as a case-insensitive infix ("contains")
match.  These definitions follow the spec's words and are compared with
the implementation's `ilike` in the claims about search semantics. -/

/-- Case-insensitive containment: the lowercased needle occurs
contiguously inside the lowercased haystack. -/
def ciContains (needle hay : String) : Bool :=
  decide (lowerCodes needle <:+: lowerCodes hay)

/-- Spec-side task match: case-insensitive infix on title OR description. -/
def specTaskMatches (query : String) (t : Task) : Bool :=
  ciContains query t.title ||
    (match t.description with
     | some d => ciContains query d
     | none => false)

/-- Spec-side note match: case-insensitive infix on title OR description. -/
def specNoteMatches (query : String) (n : Note) : Bool :=
  ciContains query n.title ||
    (match n.description with
     | some d => ciContains query d
     | none => false)

/-! ## Example rows used by concrete witnesses and counterexamples -/

def exTagA : Tag :=
  { id := 1, user_id := 1, title := "proj tag", updated_at := 10 }

def exTask0 : Task :=
  { id := 1, user_id := 1, collection_id := none, title := "proj plan",
    description := none, status := "todo", priority := "medium",
    updated_at := 3, tags := [] }

def exTask1 : Task :=
  { id := 2, user_id := 1, collection_id := none, title := "project x",
    description := none, status := "todo", priority := "high",
    updated_at := 7, tags := [] }

def exTask2 : Task :=
  { id := 3, user_id := 1, collection_id := none, title := "weekly",
    description := some "review proj deadlines", status := "done",
    priority := "low", updated_at := 5, tags := [] }

def exNote0 : Note :=
  { id := 1, user_id := 1, collection_id := none, title := "proj notes",
    description := none, updated_at := 2, tags := [] }

def exNote1 : Note :=
  { id := 2, user_id := 1, collection_id := some 0, title := "scratch",
    description := some "PROJ ideas", updated_at := 9, tags := [] }

def exColl0 : Collection :=
  { id := 1, user_id := 1, title := "archive", description := none,
    type := CollectionType.mixed, updated_at := 1, tags := [] }

/-- The global-search store realising the spec's worked example: three
tasks, two notes and one tag match `"proj"`, no collection does. -/
def exDB : SearchDB :=
  { tasks := [exTask0, exTask1, exTask2], notes := [exNote0, exNote1],
    collections := [exColl0], tags := [exTagA] }

def exCollNotesOnly : Collection :=
  { id := 2, user_id := 1, title := "notes bin", description := none,
    type := CollectionType.notes_only, updated_at := 2, tags := [] }

def exCollTasksOnly : Collection :=
  { id := 3, user_id := 1, title := "todo bin", description := none,
    type := CollectionType.tasks_only, updated_at := 2, tags := [] }

/-- A task whose title `"ab"` is hit by the wildcard query `"a_"`. -/
def exTaskWild : Task :=
  { id := 9, user_id := 1, collection_id := none, title := "ab",
    description := none, status := "todo", priority := "medium",
    updated_at := 4, tags := [] }

/-- Two tasks matching `"ee"` with equal timestamps, stored in ascending
id order. -/
def exTaskTieA : Task :=
  { id := 1, user_id := 1, collection_id := none, title := "meeting prep",
    description := none, status := "todo", priority := "medium",
    updated_at := 5, tags := [] }

def exTaskTieB : Task :=
  { id := 2, user_id := 1, collection_id := none, title := "team meeting",
    description := none, status := "todo", priority := "medium",
    updated_at := 5, tags := [] }

/-! ## Helper lemmas: sorting -/

theorem insertByDesc_perm (key : α → Int) (x : α) (l : List α) :
    List.Perm (insertByDesc key x l) (x :: l) := by
  induction l with
  | nil => simp [insertByDesc]
  | cons y ys ih =>
    simp only [insertByDesc]
    by_cases h : key y ≤ key x
    · rw [if_pos h]
    · rw [if_neg h]
      exact ((ih.cons y).trans (List.Perm.swap x y ys))

theorem sortByDesc_perm (key : α → Int) (l : List α) :
    List.Perm (sortByDesc key l) l := by
  induction l with
  | nil => simp [sortByDesc]
  | cons x xs ih =>
    simp only [sortByDesc]
    exact (insertByDesc_perm key x (sortByDesc key xs)).trans (ih.cons x)

theorem mem_sortByDesc {key : α → Int} {l : List α} {x : α} :
    x ∈ sortByDesc key l ↔ x ∈ l :=
  (sortByDesc_perm key l).mem_iff

theorem insertByDesc_pairwise (key : α → Int) (x : α) (l : List α)
    (h : l.Pairwise (fun a b => key b ≤ key a)) :
    (insertByDesc key x l).Pairwise (fun a b => key b ≤ key a) := by
  induction l with
  | nil => simp [insertByDesc]
  | cons y ys ih =>
    rw [List.pairwise_cons] at h
    obtain ⟨hy, hys⟩ := h
    simp only [insertByDesc]
    by_cases hc : key y ≤ key x
    · rw [if_pos hc]
      refine List.Pairwise.cons ?_ (List.Pairwise.cons hy hys)
      intro z hz
      rcases List.mem_cons.mp hz with rfl | hz'
      · exact hc
      · exact le_trans (hy z hz') hc
    · rw [if_neg hc]
      refine List.Pairwise.cons ?_ (ih hys)
      intro z hz
      rcases List.mem_cons.mp ((insertByDesc_perm key x ys).mem_iff.mp hz) with rfl | hz'
      · exact le_of_lt (lt_of_not_le hc)
      · exact hy z hz'

theorem sortByDesc_pairwise (key : α → Int) (l : List α) :
    (sortByDesc key l).Pairwise (fun a b => key b ≤ key a) := by
  induction l with
  | nil => simp [sortByDesc]
  | cons x xs ih => exact insertByDesc_pairwise key x _ ih

theorem insertAsc_perm (x : Int) (l : List Int) :
    List.Perm (insertAsc x l) (x :: l) := by
  induction l with
  | nil => simp [insertAsc]
  | cons y ys ih =>
    simp only [insertAsc]
    by_cases h : x ≤ y
    · rw [if_pos h]
    · rw [if_neg h]
      exact ((ih.cons y).trans (List.Perm.swap x y ys))

theorem sortAsc_perm (l : List Int) : List.Perm (sortAsc l) l := by
  induction l with
  | nil => simp [sortAsc]
  | cons x xs ih =>
    simp only [sortAsc]
    exact (insertAsc_perm x (sortAsc xs)).trans (ih.cons x)

theorem insertAsc_pairwise (x : Int) (l : List Int)
    (h : l.Pairwise (fun a b => a ≤ b)) :
    (insertAsc x l).Pairwise (fun a b => a ≤ b) := by
  induction l with
  | nil => simp [insertAsc]
  | cons y ys ih =>
    rw [List.pairwise_cons] at h
    obtain ⟨hy, hys⟩ := h
    simp only [insertAsc]
    by_cases hc : x ≤ y
    · rw [if_pos hc]
      refine List.Pairwise.cons ?_ (List.Pairwise.cons hy hys)
      intro z hz
      rcases List.mem_cons.mp hz with rfl | hz'
      · exact hc
      · exact le_trans hc (hy z hz')
    · rw [if_neg hc]
      refine List.Pairwise.cons ?_ (ih hys)
      intro z hz
      rcases List.mem_cons.mp ((insertAsc_perm x ys).mem_iff.mp hz) with rfl | hz'
      · exact le_of_lt (lt_of_not_le hc)
      · exact hy z hz'

theorem sortAsc_pairwise (l : List Int) :
    (sortAsc l).Pairwise (fun a b => a ≤ b) := by
  induction l with
  | nil => simp [sortAsc]
  | cons x xs ih => exact insertAsc_pairwise x _ ih

theorem applyWindow_sublist (skip limit : Option Nat) (l : List α) :
    (applyWindow skip limit l).Sublist l := by
  unfold applyWindow
  cases skip with
  | none =>
    cases limit with
    | none => exact List.Sublist.refl l
    | some n => exact List.take_sublist n l
  | some m =>
    cases limit with
    | none => exact List.drop_sublist m l
    | some n => exact (List.take_sublist n _).trans (List.drop_sublist m l)

/-! ## Helper lemmas: dedup -/

theorem mem_dedupFirstAux :
    ∀ (l seen : List Int) (x : Int),
      x ∈ dedupFirstAux seen l ↔ (x ∈ l ∧ x ∉ seen) := by
  intro l
  induction l with
  | nil =>
    intro seen x
    simp [dedupFirstAux]
  | cons y ys ih =>
    intro seen x
    have hstep : dedupFirstAux seen (y :: ys) =
        if seen.contains y then dedupFirstAux seen ys
        else y :: dedupFirstAux (y :: seen) ys := rfl
    by_cases hy : seen.contains y = true
    · rw [hstep, if_pos hy, ih]
      have hy' : y ∈ seen := by simpa using hy
      constructor
      · rintro ⟨h1, h2⟩
        exact ⟨List.mem_cons_of_mem y h1, h2⟩
      · rintro ⟨h1, h2⟩
        rcases List.mem_cons.mp h1 with rfl | h1'
        · exact absurd hy' h2
        · exact ⟨h1', h2⟩
    · rw [hstep, if_neg hy]
      have hy' : y ∉ seen := by simpa using hy
      simp only [List.mem_cons, ih]
      constructor
      · rintro (rfl | ⟨h1, h2⟩)
        · exact ⟨Or.inl rfl, hy'⟩
        · refine ⟨Or.inr h1, ?_⟩
          intro hseen
          exact h2 (Or.inr hseen)
      · rintro ⟨h1, h2⟩
        rcases h1 with rfl | h1'
        · exact Or.inl rfl
        · by_cases hxy : x = y
          · exact Or.inl hxy
          · refine Or.inr ⟨h1', ?_⟩
            intro hmem
            rcases hmem with h | h
            · exact hxy h
            · exact h2 h

theorem dedupFirstAux_nodup :
    ∀ (l seen : List Int), (dedupFirstAux seen l).Nodup := by
  intro l
  induction l with
  | nil =>
    intro seen
    simp [dedupFirstAux]
  | cons y ys ih =>
    intro seen
    have hstep : dedupFirstAux seen (y :: ys) =
        if seen.contains y then dedupFirstAux seen ys
        else y :: dedupFirstAux (y :: seen) ys := rfl
    by_cases hy : seen.contains y = true
    · rw [hstep, if_pos hy]
      exact ih seen
    · rw [hstep, if_neg hy]
      refine List.Pairwise.cons ?_ (ih (y :: seen))
      intro z hz
      have hmem := (mem_dedupFirstAux ys (y :: seen) z).mp hz
      intro hzy
      subst hzy
      exact hmem.2 (List.mem_cons_self y seen)

theorem mem_dedupFirst {l : List Int} {x : Int} :
    x ∈ dedupFirst l ↔ x ∈ l := by
  unfold dedupFirst
  rw [mem_dedupFirstAux]
  simp

theorem dedupFirst_nodup (l : List Int) : (dedupFirst l).Nodup :=
  dedupFirstAux_nodup l []

/-! ## Helper lemmas: Python strip -/

theorem dropWhile_idem (p : α → Bool) (l : List α) :
    List.dropWhile p (List.dropWhile p l) = List.dropWhile p l := by
  cases h : List.dropWhile p l with
  | nil => simp
  | cons x xs =>
    have hx : p x = false := by
      have := List.head_dropWhile_not p l (by simp [h])
      simpa [h] using this
    simp [List.dropWhile_cons, hx]

theorem head_false_of_dropWhile_eq_cons (p : α → Bool) (l : List α) (a : α)
    (t : List α) (h : List.dropWhile p l = a :: t) : p a = false := by
  induction l with
  | nil => simp [List.dropWhile] at h
  | cons x xs ih =>
    cases hx : p x with
    | true =>
      simp only [List.dropWhile_cons, hx, if_true] at h
      exact ih h
    | false =>
      simp only [List.dropWhile_cons, hx, if_false, List.cons.injEq] at h
      obtain ⟨rfl, -⟩ := h
      exact hx

theorem dropWhile_eq_self_of_prefix_dropWhile (p : α → Bool) (l r : List α)
    (hr : r <+: List.dropWhile p l) : List.dropWhile p r = r := by
  cases r with
  | nil => rfl
  | cons a r' =>
    obtain ⟨t, ht⟩ := hr
    have ha : p a = false :=
      head_false_of_dropWhile_eq_cons p l a (r' ++ t) ht.symm
    simp [List.dropWhile_cons, ha]

theorem stripChars_idem (cs : List Char) :
    stripChars (stripChars cs) = stripChars cs := by
  unfold stripChars
  set d := cs.dropWhile pyIsSpace with hd
  set r := (d.reverse.dropWhile pyIsSpace).reverse with hr
  have hrd : r <+: d := by
    have h1 : d.reverse.dropWhile pyIsSpace <:+ d.reverse :=
      List.dropWhile_suffix pyIsSpace
    have h2 := List.reverse_prefix.mpr h1
    rwa [List.reverse_reverse] at h2
  have hfix : List.dropWhile pyIsSpace r = r :=
    dropWhile_eq_self_of_prefix_dropWhile pyIsSpace cs r (hd ▸ hrd)
  rw [hfix, hr, List.reverse_reverse, dropWhile_idem]

theorem pyStrip_idem (s : String) : pyStrip (pyStrip s) = pyStrip s := by
  unfold pyStrip
  exact congrArg String.mk (stripChars_idem s.data)

/-! ## Helper lemmas: LIKE matching

For a pattern `%M%` whose middle part `M` contains no wildcard codes,
LIKE matching is exactly contiguous-sublist (infix) containment.  First
the fuel of `likeMatchF` is shown to be irrelevant once sufficient, which
recovers the natural recursive equations of `likeMatch`. -/

theorem likeMatchF_stable :
    ∀ (n f g : Nat) (ps s : List Nat), ps.length + s.length ≤ n →
      ps.length + s.length < f → ps.length + s.length < g →
      likeMatchF f ps s = likeMatchF g ps s := by
  intro n
  induction n with
  | zero =>
    intro f g ps s hn hf hg
    cases ps with
    | nil =>
      cases s with
      | nil =>
        obtain ⟨f', rfl⟩ : ∃ k, f = k + 1 := ⟨f - 1, by omega⟩
        obtain ⟨g', rfl⟩ : ∃ k, g = k + 1 := ⟨g - 1, by omega⟩
        rfl
      | cons c s' =>
        simp only [List.length_nil, List.length_cons] at hn
        omega
    | cons p ps' =>
      simp only [List.length_cons] at hn
      omega
  | succ n ih =>
    intro f g ps s hn hf hg
    obtain ⟨f', rfl⟩ : ∃ k, f = k + 1 := ⟨f - 1, by omega⟩
    obtain ⟨g', rfl⟩ : ∃ k, g = k + 1 := ⟨g - 1, by omega⟩
    cases ps with
    | nil =>
      cases s with
      | nil => rfl
      | cons c s' => rfl
    | cons p ps' =>
      cases s with
      | nil =>
        simp only [List.length_cons, List.length_nil] at hn hf hg
        show (if p == 37 then likeMatchF f' ps' [] else false) =
          (if p == 37 then likeMatchF g' ps' [] else false)
        by_cases hp : (p == 37) = true
        · rw [if_pos hp, if_pos hp]
          apply ih
          · simp only [List.length_nil]
            omega
          · simp only [List.length_nil]
            omega
          · simp only [List.length_nil]
            omega
        · rw [if_neg hp, if_neg hp]
      | cons c s' =>
        simp only [List.length_cons] at hn hf hg
        show (if p == 37 then likeMatchF f' ps' (c :: s') || likeMatchF f' (p :: ps') s'
            else (p == 95 || c == p) && likeMatchF f' ps' s') =
          (if p == 37 then likeMatchF g' ps' (c :: s') || likeMatchF g' (p :: ps') s'
            else (p == 95 || c == p) && likeMatchF g' ps' s')
        by_cases hp : (p == 37) = true
        · rw [if_pos hp, if_pos hp]
          rw [ih f' g' ps' (c :: s')
            (by (try simp only [List.length_cons, List.length_nil]); omega)
            (by (try simp only [List.length_cons, List.length_nil]); omega)
            (by (try simp only [List.length_cons, List.length_nil]); omega)]
          rw [ih f' g' (p :: ps') s'
            (by (try simp only [List.length_cons, List.length_nil]); omega)
            (by (try simp only [List.length_cons, List.length_nil]); omega)
            (by (try simp only [List.length_cons, List.length_nil]); omega)]
        · rw [if_neg hp, if_neg hp]
          rw [ih f' g' ps' s' (by omega) (by omega) (by omega)]

theorem likeMatch_eq_likeMatchF (f : Nat) (ps s : List Nat)
    (hf : ps.length + s.length < f) : likeMatchF f ps s = likeMatch ps s :=
  likeMatchF_stable (ps.length + s.length) f (ps.length + s.length + 1) ps s
    (le_refl _) hf (by omega)

theorem likeMatch_nil_nil : likeMatch [] [] = true := rfl

theorem likeMatch_nil_cons (c : Nat) (s : List Nat) :
    likeMatch [] (c :: s) = false := rfl

theorem likeMatch_cons_nil (p : Nat) (ps : List Nat) :
    likeMatch (p :: ps) [] = if p == 37 then likeMatch ps [] else false := rfl

theorem likeMatch_cons_cons (p : Nat) (ps : List Nat) (c : Nat) (s : List Nat) :
    likeMatch (p :: ps) (c :: s) =
      if p == 37 then likeMatch ps (c :: s) || likeMatch (p :: ps) s
      else (p == 95 || c == p) && likeMatch ps s := by
  show (if p == 37 then
      likeMatchF (ps.length + 1 + (s.length + 1)) ps (c :: s)
        || likeMatchF (ps.length + 1 + (s.length + 1)) (p :: ps) s
    else (p == 95 || c == p)
        && likeMatchF (ps.length + 1 + (s.length + 1)) ps s) = _
  by_cases hp : (p == 37) = true
  · rw [if_pos hp, if_pos hp]
    rw [likeMatch_eq_likeMatchF _ ps (c :: s)
      (by (try simp only [List.length_cons, List.length_nil]); omega)]
    rw [likeMatch_eq_likeMatchF _ (p :: ps) s
      (by (try simp only [List.length_cons, List.length_nil]); omega)]
  · rw [if_neg hp, if_neg hp]
    rw [likeMatch_eq_likeMatchF _ ps s (by omega)]

theorem likeMatch_pct_all (s : List Nat) : likeMatch [37] s = true := by
  induction s with
  | nil => rfl
  | cons c s' ih => simp [likeMatch_cons_cons, likeMatch_nil_cons, ih]

theorem likeMatch_pct_iff (ps : List Nat) (s : List Nat) :
    likeMatch (37 :: ps) s = true ↔ ∃ t, t <:+ s ∧ likeMatch ps t = true := by
  induction s with
  | nil =>
    rw [likeMatch_cons_nil]
    simp only [beq_self_eq_true, if_true]
    constructor
    · intro h
      exact ⟨[], List.suffix_rfl, h⟩
    · rintro ⟨t, hts, ht⟩
      rw [List.suffix_nil] at hts
      subst hts
      exact ht
  | cons c s' ih =>
    have heq : likeMatch (37 :: ps) (c :: s') =
        (likeMatch ps (c :: s') || likeMatch (37 :: ps) s') := by
      simp [likeMatch_cons_cons]
    rw [heq, Bool.or_eq_true, ih]
    constructor
    · rintro (h | ⟨t, hts, ht⟩)
      · exact ⟨c :: s', List.suffix_rfl, h⟩
      · exact ⟨t, hts.trans (List.suffix_cons c s'), ht⟩
    · rintro ⟨t, hts, ht⟩
      rcases List.suffix_cons_iff.mp hts with rfl | hts'
      · exact Or.inl ht
      · exact Or.inr ⟨t, hts', ht⟩

theorem likeMatch_lit_pct_iff (M : List Nat) (hM : ∀ p ∈ M, p ≠ 37 ∧ p ≠ 95)
    (s : List Nat) : likeMatch (M ++ [37]) s = true ↔ M <+: s := by
  induction M generalizing s with
  | nil =>
    simp only [List.nil_append]
    constructor
    · intro _
      exact List.nil_prefix
    · intro _
      exact likeMatch_pct_all s
  | cons m M' ih =>
    have hm := hM m (List.mem_cons_self m M')
    have hM' : ∀ p ∈ M', p ≠ 37 ∧ p ≠ 95 :=
      fun p hp => hM p (List.mem_cons_of_mem m hp)
    have hm37 : (m == 37) = false := by
      simp [hm.1]
    have hm95 : (m == 95) = false := by
      simp [hm.2]
    cases s with
    | nil =>
      have heq : likeMatch ((m :: M') ++ [37]) [] = false := by
        rw [List.cons_append, likeMatch_cons_nil, hm37]
        simp
      rw [heq]
      constructor
      · intro h
        exact absurd h (by simp)
      · intro h
        rw [List.prefix_nil] at h
        exact absurd h (by simp)
    | cons c s' =>
      have heq : likeMatch ((m :: M') ++ [37]) (c :: s') =
          ((m == 95 || c == m) && likeMatch (M' ++ [37]) s') := by
        rw [List.cons_append, likeMatch_cons_cons, hm37]
        simp
      rw [heq, hm95]
      simp only [Bool.false_or, Bool.and_eq_true, beq_iff_eq]
      rw [List.cons_prefix_cons, ih hM']
      constructor
      · rintro ⟨rfl, h⟩
        exact ⟨rfl, h⟩
      · rintro ⟨rfl, h⟩
        exact ⟨rfl, h⟩

theorem likeMatch_wrap_iff (M : List Nat) (hM : ∀ p ∈ M, p ≠ 37 ∧ p ≠ 95)
    (s : List Nat) : likeMatch (37 :: (M ++ [37])) s = true ↔ M <:+: s := by
  rw [likeMatch_pct_iff, List.infix_iff_prefix_suffix]
  constructor
  · rintro ⟨t, hts, ht⟩
    exact ⟨t, (likeMatch_lit_pct_iff M hM t).mp ht, hts⟩
  · rintro ⟨t, htp, hts⟩
    exact ⟨t, hts, (likeMatch_lit_pct_iff M hM t).mpr htp⟩

theorem string_data_append (a b : String) : (a ++ b).data = a.data ++ b.data :=
  rfl

theorem lowerCodes_append (a b : String) :
    lowerCodes (a ++ b) = lowerCodes a ++ lowerCodes b := by
  simp [lowerCodes, string_data_append]

theorem lowerCodes_searchTerm (q : String) :
    lowerCodes (searchTerm q) = 37 :: (lowerCodes q ++ [37]) := by
  unfold searchTerm
  rw [lowerCodes_append, lowerCodes_append]
  have h : lowerCodes "%" = [37] := by decide
  rw [h]
  simp

theorem lowerN_ne_wild {n : Nat} (h37 : n ≠ 37) (h95 : n ≠ 95) :
    lowerN n ≠ 37 ∧ lowerN n ≠ 95 := by
  unfold lowerN
  split
  · next h => omega
  · next h => exact ⟨h37, h95⟩

theorem mem_lowerCodes_ne_wild (q : String)
    (hw : ∀ c ∈ q.data, c ≠ '%' ∧ c ≠ '_') :
    ∀ p ∈ lowerCodes q, p ≠ 37 ∧ p ≠ 95 := by
  intro p hp
  simp only [lowerCodes, List.mem_map] at hp
  obtain ⟨c, hc, rfl⟩ := hp
  have h37 : c.toNat ≠ 37 := by
    intro h
    apply (hw c hc).1
    apply Char.ext
    apply UInt32.ext
    show c.toNat = Char.toNat '%'
    rw [h]
    decide
  have h95 : c.toNat ≠ 95 := by
    intro h
    apply (hw c hc).2
    apply Char.ext
    apply UInt32.ext
    show c.toNat = Char.toNat '_'
    rw [h]
    decide
  exact lowerN_ne_wild h37 h95

theorem bool_eq_decide {P : Prop} [Decidable P] {b : Bool}
    (h : b = true ↔ P) : b = decide P := by
  by_cases hp : P
  · rw [decide_eq_true hp]
    exact h.mpr hp
  · rw [decide_eq_false hp]
    cases hb : b
    · rfl
    · exact absurd (h.mp hb) hp

theorem ilike_searchTerm_eq_ciContains (q s : String)
    (hw : ∀ c ∈ q.data, c ≠ '%' ∧ c ≠ '_') :
    ilike s (searchTerm q) = ciContains q s := by
  unfold ilike ciContains
  rw [lowerCodes_searchTerm]
  apply bool_eq_decide
  exact likeMatch_wrap_iff (lowerCodes q) (mem_lowerCodes_ne_wild q hw)
    (lowerCodes s)

theorem ilikeOpt_searchTerm_eq (q : String) (d : Option String)
    (hw : ∀ c ∈ q.data, c ≠ '%' ∧ c ≠ '_') :
    ilikeOpt d (searchTerm q) =
      (match d with
       | some s => ciContains q s
       | none => false) := by
  cases d with
  | none => rfl
  | some s => exact ilike_searchTerm_eq_ciContains q s hw

/-! ## Helper lemmas: lists with distinct keys -/

theorem nodup_subset_length_le {l1 l2 : List Int} (h1 : l1.Nodup)
    (h2 : l2.Nodup) (hs : l1 ⊆ l2) : l1.length ≤ l2.length := by
  calc l1.length = l1.toFinset.card := (List.toFinset_card_of_nodup h1).symm
    _ ≤ l2.toFinset.card := Finset.card_le_card
        (fun x hx => List.mem_toFinset.mpr (hs (List.mem_toFinset.mp hx)))
    _ = l2.length := List.toFinset_card_of_nodup h2

theorem nodup_subset_length_eq_iff {l1 l2 : List Int} (h1 : l1.Nodup)
    (h2 : l2.Nodup) (hs : l1 ⊆ l2) :
    l1.length = l2.length ↔ ∀ i ∈ l2, i ∈ l1 := by
  constructor
  · intro hlen i hi
    have hcards : l2.toFinset.card ≤ l1.toFinset.card := by
      rw [List.toFinset_card_of_nodup h1, List.toFinset_card_of_nodup h2] at *
      omega
    have hfs : l1.toFinset ⊆ l2.toFinset :=
      fun x hx => List.mem_toFinset.mpr (hs (List.mem_toFinset.mp hx))
    have := Finset.eq_of_subset_of_card_le hfs hcards
    rw [← List.mem_toFinset, ← this, List.mem_toFinset] at hi
    exact hi
  · intro hall
    exact le_antisymm (nodup_subset_length_le h1 h2 hs)
      (nodup_subset_length_le h2 h1 hall)

/-! ## Claim C2 -/

/-- Claim C2: with `require_all = true`, whenever at least one requested
tag id does not resolve for the user, `_load_tags` fails with the
tags-not-found `ValidationError` whose payload is exactly the set of
missing identifiers (de-duplicated requested ids minus found ids) in
strictly ascending order; when every de-duplicated id resolves, it
returns the resolved tag rows without error.  The store's primary keys
are assumed distinct. -/
theorem load_tags_missing_and_resolved (db : List Tag) (user_id : Int)
    (tag_ids : List Int) (hdb : (db.map Tag.id).Nodup) :
    ((∃ i ∈ dedupFirst tag_ids, i ∉ (foundTags db user_id tag_ids).map Tag.id) →
      ∃ m, _load_tags db user_id tag_ids true = .error (.tagsNotFound m) ∧
        m.Pairwise (fun a b => a < b) ∧
        (∀ i, i ∈ m ↔ (i ∈ dedupFirst tag_ids ∧
          i ∉ (foundTags db user_id tag_ids).map Tag.id))) ∧
    ((∀ i ∈ dedupFirst tag_ids, i ∈ (foundTags db user_id tag_ids).map Tag.id) →
      _load_tags db user_id tag_ids true = .ok (foundTags db user_id tag_ids)) := by
  have hids_nodup : (dedupFirst tag_ids).Nodup := dedupFirst_nodup tag_ids
  have hfound_nodup : ((foundTags db user_id tag_ids).map Tag.id).Nodup := by
    refine List.Sublist.nodup ?_ hdb
    exact List.Sublist.map Tag.id (List.filter_sublist db)
  have hfound_sub :
      ∀ i ∈ (foundTags db user_id tag_ids).map Tag.id, i ∈ dedupFirst tag_ids := by
    intro i hi
    simp only [List.mem_map] at hi
    obtain ⟨t, ht, rfl⟩ := hi
    have hpred := (List.mem_filter.mp ht).2
    simp only [Bool.and_eq_true] at hpred
    simpa using hpred.2
  have hlen_map : (foundTags db user_id tag_ids).length =
      ((foundTags db user_id tag_ids).map Tag.id).length := by
    rw [List.length_map]
  have hkey := nodup_subset_length_eq_iff hfound_nodup hids_nodup hfound_sub
  constructor
  · rintro ⟨i0, hi0, hi0n⟩
    have hne : (dedupFirst tag_ids).isEmpty = false := by
      cases h : dedupFirst tag_ids with
      | nil => rw [h] at hi0; exact absurd hi0 (by simp)
      | cons a l => simp
    have hlen_ne : ¬((foundTags db user_id tag_ids).length =
        (dedupFirst tag_ids).length) := by
      intro heq
      rw [hlen_map] at heq
      exact hi0n ((hkey.mp heq) i0 hi0)
    have hbeq : ((foundTags db user_id tag_ids).length ==
        (dedupFirst tag_ids).length) = false := by
      simp [hlen_ne]
    refine ⟨sortAsc ((dedupFirst tag_ids).filter
      (fun i => !(((foundTags db user_id tag_ids).map Tag.id).contains i))), ?_, ?_, ?_⟩
    · simp [_load_tags, hne, hbeq]
    · have hperm := sortAsc_perm ((dedupFirst tag_ids).filter
        (fun i => !(((foundTags db user_id tag_ids).map Tag.id).contains i)))
      have hle := sortAsc_pairwise ((dedupFirst tag_ids).filter
        (fun i => !(((foundTags db user_id tag_ids).map Tag.id).contains i)))
      have hnd : (sortAsc ((dedupFirst tag_ids).filter
          (fun i => !(((foundTags db user_id tag_ids).map Tag.id).contains i)))).Nodup :=
        hperm.nodup_iff.mpr (List.Nodup.filter _ hids_nodup)
      exact (hle.and hnd).imp (fun hab => lt_of_le_of_ne hab.1 hab.2)
    · intro i
      rw [(sortAsc_perm _).mem_iff, List.mem_filter]
      simp
  · intro hall
    by_cases hemp : dedupFirst tag_ids = []
    · have hfound_nil : foundTags db user_id tag_ids = [] := by
        refine List.filter_eq_nil_iff.mpr ?_
        intro t _
        simp [foundTags, hemp]
      simp [_load_tags, hemp, hfound_nil]
    · have hne2 : (dedupFirst tag_ids).isEmpty = false := by
        cases hd : dedupFirst tag_ids with
        | nil => exact absurd hd hemp
        | cons a l => simp
      have hlen : (foundTags db user_id tag_ids).length =
          (dedupFirst tag_ids).length := by
        rw [hlen_map]
        exact hkey.mpr hall
      have hbeq : ((foundTags db user_id tag_ids).length ==
          (dedupFirst tag_ids).length) = true := by
        simp [hlen]
      simp [_load_tags, hne2, hbeq]

/-- Concrete witness for C2: tag id 2 is not owned by user 1, so the
validator fails listing exactly `[2]`. -/
theorem load_tags_missing_and_resolved_witness :
    ∃ m, _load_tags [exTagA] 1 [1, 2] true = .error (.tagsNotFound m) ∧
      m.Pairwise (fun a b => a < b) ∧
      (∀ i, i ∈ m ↔ (i ∈ dedupFirst [1, 2] ∧
        i ∉ (foundTags [exTagA] 1 [1, 2]).map Tag.id)) :=
  (load_tags_missing_and_resolved [exTagA] 1 [1, 2] (by decide)).1
    ⟨2, by decide, by decide⟩

/-! ## Claim C3 -/

/-- Claim C3: the tag reconcilers dispatch on the entity's persistence
state — a transient or pending entity gets the resolved tag list assigned
directly, a persistent entity has its store-loaded tag collection cleared
and repopulated — and in every lifecycle state the entity's final tag set
equals the resolved desired set (`storeT`/`storeN`/`storeC` are the tag
collections the store would deliver on refresh; the result does not
depend on them). -/
theorem set_tags_lifecycle (db storeT storeN storeC : List Tag)
    (st : PersistState) (task : Task) (note : Note) (collection : Collection)
    (tag_ids : List Int) (tags : List Tag)
    (hT : _load_tags db task.user_id tag_ids true = .ok tags)
    (hN : _load_tags db note.user_id tag_ids true = .ok tags)
    (hC : _load_tags db collection.user_id tag_ids true = .ok tags) :
    set_task_tags db storeT st task tag_ids = .ok { task with tags := tags } ∧
    set_note_tags db storeN st note tag_ids = .ok { note with tags := tags } ∧
    set_collection_tags db storeC st collection tag_ids =
      .ok { collection with tags := tags } := by
  refine ⟨?_, ?_, ?_⟩
  · unfold set_task_tags
    rw [hT]
    by_cases hst : _is_new_or_pending st = true
    · simp [hst]
    · simp [hst]
  · unfold set_note_tags
    rw [hN]
    by_cases hst : _is_new_or_pending st = true
    · simp [hst]
    · simp [hst]
  · unfold set_collection_tags
    rw [hC]
    by_cases hst : _is_new_or_pending st = true
    · simp [hst]
    · simp [hst]

/-- Concrete witness for C3 (persistent branch with an empty store view). -/
theorem set_tags_lifecycle_witness :
    set_task_tags [exTagA] [] PersistState.persistent exTask0 [1] =
      .ok { exTask0 with tags := [exTagA] } ∧
    set_note_tags [exTagA] [] PersistState.persistent exNote0 [1] =
      .ok { exNote0 with tags := [exTagA] } ∧
    set_collection_tags [exTagA] [] PersistState.persistent exColl0 [1] =
      .ok { exColl0 with tags := [exTagA] } :=
  set_tags_lifecycle [exTagA] [] [] [] PersistState.persistent
    exTask0 exNote0 exColl0 [1] [exTagA] (by decide) (by decide) (by decide)

/-! ## Claim C7 -/

/-- Claim C7: tag reconciliation on a persisted entity is idempotent —
if a first call succeeds (so the desired set resolved), a second call
with the same desired ids (under any store view of the current tags)
returns the entity unchanged. -/
theorem set_tags_idempotent (db store1 store2 : List Tag) (task : Task)
    (note : Note) (tag_ids : List Int) (t1 : Task) (n1 : Note)
    (hT1 : set_task_tags db store1 PersistState.persistent task tag_ids = .ok t1)
    (hN1 : set_note_tags db store1 PersistState.persistent note tag_ids = .ok n1) :
    set_task_tags db store2 PersistState.persistent t1 tag_ids = .ok t1 ∧
    set_note_tags db store2 PersistState.persistent n1 tag_ids = .ok n1 := by
  constructor
  · unfold set_task_tags at hT1 ⊢
    cases hload : _load_tags db task.user_id tag_ids true with
    | error e =>
      rw [hload] at hT1
      exact absurd hT1 (by simp)
    | ok tags =>
      rw [hload] at hT1
      simp only [_is_new_or_pending, Bool.false_eq_true, if_false,
        List.nil_append, Except.ok.injEq] at hT1
      subst hT1
      simp [_is_new_or_pending, hload]
  · unfold set_note_tags at hN1 ⊢
    cases hload : _load_tags db note.user_id tag_ids true with
    | error e =>
      rw [hload] at hN1
      exact absurd hN1 (by simp)
    | ok tags =>
      rw [hload] at hN1
      simp only [_is_new_or_pending, Bool.false_eq_true, if_false,
        List.nil_append, Except.ok.injEq] at hN1
      subst hN1
      simp [_is_new_or_pending, hload]

/-- Concrete witness for C7. -/
theorem set_tags_idempotent_witness :
    set_task_tags [exTagA] [] PersistState.persistent
      { exTask0 with tags := [exTagA] } [1] =
      .ok { exTask0 with tags := [exTagA] } ∧
    set_note_tags [exTagA] [] PersistState.persistent
      { exNote0 with tags := [exTagA] } [1] =
      .ok { exNote0 with tags := [exTagA] } :=
  set_tags_idempotent [exTagA] [] [] exTask0 exNote0 [1]
    { exTask0 with tags := [exTagA] } { exNote0 with tags := [exTagA] }
    (by decide) (by decide)

/-! ## Claim C4 -/

/-- Counterexample to claim C4 as stated: `collection_id = 0` is a
non-null value and no collection with id `0` exists in the (empty) store,
so the claim requires a not-found failure — but both services skip the
whole containment check, because the Python guard
`if task_create.collection_id:` treats the falsy value `0` like `None`. -/
theorem containment_check_counterexample :
    validate_task_collection [] 1 (some 0) = .ok () ∧
    validate_note_collection [] 1 (some 0) = .ok () ∧
    get_collection_by_id_and_user [] 0 1 = none ∧
    validate_task_collection [] 1 (some 0) ≠ .error collectionNotFoundError := by
  decide

/-- Claim C4 (amended): when a task's or note's `collection_id` is set to
a non-null, nonzero value, the services first confirm the collection
exists and is owned by the requesting user, failing with the not-found
error otherwise, and only then check the kind: a notes-only collection
rejects a task and a tasks-only collection rejects a note with a
policy-violation client error distinct from not-found, while any other
kind (in particular mixed) is accepted; a null `collection_id` — and, by
Python truthiness, the value `0` — never invokes the check, whatever the
store contents. -/
theorem containment_check_amended :
    (∀ (db : List Collection) (user_id cid : Int), cid ≠ 0 →
      get_collection_by_id_and_user db cid user_id = none →
      validate_task_collection db user_id (some cid) =
        .error collectionNotFoundError ∧
      validate_note_collection db user_id (some cid) =
        .error collectionNotFoundError) ∧
    (∀ (db : List Collection) (user_id cid : Int) (c : Collection), cid ≠ 0 →
      get_collection_by_id_and_user db cid user_id = some c →
      (c.type = CollectionType.notes_only →
        validate_task_collection db user_id (some cid) =
          .error taskIntoNotesOnlyError) ∧
      (c.type ≠ CollectionType.notes_only →
        validate_task_collection db user_id (some cid) = .ok ()) ∧
      (c.type = CollectionType.tasks_only →
        validate_note_collection db user_id (some cid) =
          .error noteIntoTasksOnlyError) ∧
      (c.type ≠ CollectionType.tasks_only →
        validate_note_collection db user_id (some cid) = .ok ())) ∧
    (∀ (db db' : List Collection) (user_id : Int),
      validate_task_collection db user_id none = .ok () ∧
      validate_note_collection db user_id none = .ok () ∧
      validate_task_collection db user_id (some 0) =
        validate_task_collection db' user_id (some 0) ∧
      validate_note_collection db user_id (some 0) =
        validate_note_collection db' user_id (some 0)) ∧
    (∀ s s', ApiError.badRequest s ≠ ApiError.notFound s') := by
  refine ⟨?_, ?_, ?_, ?_⟩
  · intro db user_id cid hcid hfound
    have hbeq : (cid == 0) = false := by simp [hcid]
    constructor
    · simp [validate_task_collection, hbeq, hfound]
    · simp [validate_note_collection, hbeq, hfound]
  · intro db user_id cid c hcid hfound
    have hbeq : (cid == 0) = false := by simp [hcid]
    refine ⟨?_, ?_, ?_, ?_⟩
    · intro ht
      simp [validate_task_collection, hbeq, hfound, ht]
    · intro ht
      simp [validate_task_collection, hbeq, hfound, ht]
    · intro ht
      simp [validate_note_collection, hbeq, hfound, ht]
    · intro ht
      simp [validate_note_collection, hbeq, hfound, ht]
  · intro db db' user_id
    refine ⟨rfl, rfl, ?_, ?_⟩
    · simp [validate_task_collection]
    · simp [validate_note_collection]
  · intro s s' h
    cases h

/-- Concrete witness for the amended C4, exercising the not-found branch,
both rejection branches, and both acceptance branches. -/
theorem containment_check_amended_witness :
    validate_task_collection [exCollNotesOnly] 1 (some 5) =
      .error collectionNotFoundError ∧
    validate_task_collection [exCollNotesOnly] 1 (some 2) =
      .error taskIntoNotesOnlyError ∧
    validate_note_collection [exCollTasksOnly] 1 (some 3) =
      .error noteIntoTasksOnlyError ∧
    validate_note_collection [exCollNotesOnly] 1 (some 2) = .ok () ∧
    validate_task_collection [exColl0] 1 (some 1) = .ok () :=
  ⟨(containment_check_amended.1 [exCollNotesOnly] 1 5 (by decide) (by decide)).1,
   (containment_check_amended.2.1 [exCollNotesOnly] 1 2 exCollNotesOnly
     (by decide) (by decide)).1 (by decide),
   ((containment_check_amended.2.1 [exCollTasksOnly] 1 3 exCollTasksOnly
     (by decide) (by decide)).2.2).1 (by decide),
   ((containment_check_amended.2.1 [exCollNotesOnly] 1 2 exCollNotesOnly
     (by decide) (by decide)).2.2).2 (by decide),
   ((containment_check_amended.2.1 [exColl0] 1 1 exColl0
     (by decide) (by decide)).2.1) (by decide)⟩

/-! ## Claim C6 -/

/-- Counterexample to claim C6 as stated: the repositories order only by
`updated_at DESC` (no id tie-break is emitted), so two matching tasks with
equal timestamps come back in store order — here ascending id — violating
the claimed id-descending tie-break. -/
theorem search_order_counterexample :
    search_tasks [exTaskTieA, exTaskTieB] 1 "ee" none none none none none =
      [exTaskTieA, exTaskTieB] ∧
    exTaskTieA.updated_at = exTaskTieB.updated_at ∧
    exTaskTieA.id < exTaskTieB.id ∧
    ¬ List.Pairwise (fun a b : Task => b.updated_at < a.updated_at ∨
        (b.updated_at = a.updated_at ∧ b.id < a.id))
      (search_tasks [exTaskTieA, exTaskTieB] 1 "ee" none none none none none) := by
  decide

/-- Claim C6 (amended): every per-entity search result is ordered
descending by last-modified timestamp; the relative order of entities with
equal timestamps is not specified (it follows the store's row order). -/
theorem search_order_desc_amended :
    (∀ (db : List Task) user_id query st pr cid skip limit,
      (search_tasks db user_id query st pr cid skip limit).Pairwise
        (fun a b => b.updated_at ≤ a.updated_at)) ∧
    (∀ (db : List Note) user_id query cid skip limit,
      (search_notes db user_id query cid skip limit).Pairwise
        (fun a b => b.updated_at ≤ a.updated_at)) ∧
    (∀ (db : List Collection) user_id query tf skip limit,
      (search_collections db user_id query tf skip limit).Pairwise
        (fun a b => b.updated_at ≤ a.updated_at)) ∧
    (∀ (db : List Tag) user_id query skip limit,
      (search_tags db user_id query skip limit).Pairwise
        (fun a b => b.updated_at ≤ a.updated_at)) := by
  refine ⟨?_, ?_, ?_, ?_⟩ <;> intros <;>
    exact List.Pairwise.sublist (applyWindow_sublist _ _ _)
      (sortByDesc_pairwise _ _)

/-! ## Claim C9 -/

/-- Claim C9: every entity any of the four searches returns belongs to the
requesting user, for every query, filter combination and window. -/
theorem search_scoped_to_user :
    (∀ (db : List Task) user_id query st pr cid skip limit t,
      t ∈ search_tasks db user_id query st pr cid skip limit →
      t.user_id = user_id) ∧
    (∀ (db : List Note) user_id query cid skip limit n,
      n ∈ search_notes db user_id query cid skip limit →
      n.user_id = user_id) ∧
    (∀ (db : List Collection) user_id query tf skip limit c,
      c ∈ search_collections db user_id query tf skip limit →
      c.user_id = user_id) ∧
    (∀ (db : List Tag) user_id query skip limit g,
      g ∈ search_tags db user_id query skip limit →
      g.user_id = user_id) := by
  refine ⟨?_, ?_, ?_, ?_⟩
  · intro db user_id query st pr cid skip limit t ht
    have h2 := mem_sortByDesc.mp ((applyWindow_sublist skip limit _).subset ht)
    have h3 := (List.mem_filter.mp h2).2
    simp only [taskRowMatches, Bool.and_eq_true, beq_iff_eq] at h3
    exact h3.1.1.1.1
  · intro db user_id query cid skip limit n hn
    have h2 := mem_sortByDesc.mp ((applyWindow_sublist skip limit _).subset hn)
    have h3 := (List.mem_filter.mp h2).2
    simp only [noteRowMatches, Bool.and_eq_true, beq_iff_eq] at h3
    exact h3.1.1
  · intro db user_id query tf skip limit c hc
    have h2 := mem_sortByDesc.mp ((applyWindow_sublist skip limit _).subset hc)
    have h3 := (List.mem_filter.mp h2).2
    simp only [collectionRowMatches, Bool.and_eq_true, beq_iff_eq] at h3
    exact h3.1.1
  · intro db user_id query skip limit g hg
    have h2 := mem_sortByDesc.mp ((applyWindow_sublist skip limit _).subset hg)
    have h3 := (List.mem_filter.mp h2).2
    simp only [tagRowMatches, Bool.and_eq_true, beq_iff_eq] at h3
    exact h3.1

/-- Concrete witness for C9. -/
theorem search_scoped_to_user_witness :
    exTask0 ∈ search_tasks [exTask0] 1 "pr" none none none none none ∧
    exTask0.user_id = 1 :=
  ⟨by decide,
   search_scoped_to_user.1 [exTask0] 1 "pr" none none none none none exTask0
     (by decide)⟩

/-! ## Claim C10 -/

/-- Claim C10: `search_tasks` guards its filters by Python truthiness, so
`collection_id = 0` and an empty-string `status` act exactly like `None`
(no constraint); `search_notes` instead guards its collection filter by
`is not None`, so `collection_id = 0` constrains the results to notes
whose stored `collection_id` equals `0`. -/
theorem falsy_filter_divergence :
    (∀ (db : List Task) user_id query st pr skip limit,
      search_tasks db user_id query st pr (some 0) skip limit =
        search_tasks db user_id query st pr none skip limit) ∧
    (∀ (db : List Task) user_id query pr cid skip limit,
      search_tasks db user_id query (some "") pr cid skip limit =
        search_tasks db user_id query none pr cid skip limit) ∧
    (∀ (db : List Note) user_id query skip limit n,
      n ∈ search_notes db user_id query (some 0) skip limit →
      n.collection_id = some 0) := by
  refine ⟨?_, ?_, ?_⟩
  · intro db user_id query st pr skip limit
    unfold search_tasks
    have hfil : taskRowMatches user_id query st pr (some 0) =
        taskRowMatches user_id query st pr none := by
      funext t
      simp [taskRowMatches]
    rw [hfil]
  · intro db user_id query pr cid skip limit
    unfold search_tasks
    have hfil : taskRowMatches user_id query (some "") pr cid =
        taskRowMatches user_id query none pr cid := by
      funext t
      simp [taskRowMatches]
    rw [hfil]
  · intro db user_id query skip limit n hn
    have h2 := mem_sortByDesc.mp ((applyWindow_sublist skip limit _).subset hn)
    have h3 := (List.mem_filter.mp h2).2
    simp only [noteRowMatches, Bool.and_eq_true] at h3
    have h4 := h3.1.2
    cases hcid : n.collection_id with
    | none =>
      rw [hcid] at h4
      simp [optIntEq] at h4
    | some x =>
      rw [hcid] at h4
      simp only [optIntEq, beq_iff_eq] at h4
      rw [h4]

/-- Concrete witness for C10: a note stored with `collection_id = 0` is
returned when searching with `collection_id = 0`, and its collection id is
constrained to `0`. -/
theorem falsy_filter_divergence_witness :
    exNote1 ∈ search_notes [exNote1] 1 "sc" (some 0) none none ∧
    exNote1.collection_id = some 0 :=
  ⟨by decide,
   falsy_filter_divergence.2.2 [exNote1] 1 "sc" none none exNote1 (by decide)⟩

/-! ## Helper lemmas: the service-boundary query precondition -/

theorem queryTooShort_false {query : String}
    (hlen : 2 ≤ (pyStrip query).length) : queryTooShort query = false := by
  unfold queryTooShort
  have h1 : (query == "") = false := by
    by_cases hq0 : query = ""
    · subst hq0
      exact absurd hlen (by decide)
    · simp [hq0]
  rw [h1, Bool.false_or]
  exact decide_eq_false (by omega)

theorem queryTooShort_strip_false {query : String}
    (hlen : 2 ≤ (pyStrip query).length) :
    queryTooShort (pyStrip query) = false := by
  unfold queryTooShort
  have h1 : (pyStrip query == "") = false := by
    by_cases hq0 : pyStrip query = ""
    · rw [hq0] at hlen
      exact absurd hlen (by decide)
    · simp [hq0]
  rw [h1, Bool.false_or, pyStrip_idem]
  exact decide_eq_false (by omega)

theorem strip_ne_empty {query : String}
    (hlen : 2 ≤ (pyStrip query).length) : (pyStrip query == "") = false := by
  by_cases hq0 : pyStrip query = ""
  · rw [hq0] at hlen
    exact absurd hlen (by decide)
  · simp [hq0]

/-! ## Claim C5 -/

/-- Counterexample to claim C5 as stated: the valid two-character query
`"a_"` is passed unescaped into the LIKE pattern `%a_%`, so the task
titled `"ab"` is returned even though `"a_"` is not a case-insensitive
infix of its title (and its description is null): the spec-side
"contains" predicate rejects the pair the implementation returns. -/
theorem search_like_wildcard_counterexample :
    search_user_tasks [exTaskWild] 1 "a_" none none none none none =
      .ok [exTaskWild] ∧
    specTaskMatches "a_" exTaskWild = false ∧
    (pyStrip "a_").length = 2 := by
  decide

/-- Claim C5 (amended): for every valid query whose stripped form contains
no LIKE wildcard character (`%` or `_`), each per-entity search succeeds
(never an error once the length precondition is met — in particular a
query matching nothing yields `ok []`) and returns exactly the user's
entities whose title — or, for tasks and notes only, title or description —
contains the query case-insensitively, in the repository order.  Queries
containing `%` or `_` are instead interpreted as LIKE patterns
(`search_like_wildcard_counterexample`). -/
theorem search_ci_contains_amended (tdb : List Task) (ndb : List Note)
    (cdb : List Collection) (gdb : List Tag) (user_id : Int) (query : String)
    (hlen : 2 ≤ (pyStrip query).length)
    (hw : ∀ c ∈ (pyStrip query).data, c ≠ '%' ∧ c ≠ '_') :
    search_user_tasks tdb user_id query none none none none none =
      .ok (sortByDesc (fun t => t.updated_at) (tdb.filter
        (fun t => t.user_id == user_id
          && specTaskMatches (pyStrip query) t))) ∧
    search_user_notes ndb user_id query none none none =
      .ok (sortByDesc (fun n => n.updated_at) (ndb.filter
        (fun n => n.user_id == user_id
          && specNoteMatches (pyStrip query) n))) ∧
    search_user_collections cdb user_id query none none none =
      .ok (sortByDesc (fun c => c.updated_at) (cdb.filter
        (fun c => c.user_id == user_id
          && ciContains (pyStrip query) c.title))) ∧
    search_user_tags gdb user_id query none none =
      .ok (sortByDesc (fun g => g.updated_at) (gdb.filter
        (fun g => g.user_id == user_id
          && ciContains (pyStrip query) g.title))) := by
  have hq := queryTooShort_false hlen
  have hne := strip_ne_empty hlen
  have hilike := fun s => ilike_searchTerm_eq_ciContains (pyStrip query) s hw
  have hiopt := fun d => ilikeOpt_searchTerm_eq (pyStrip query) d hw
  refine ⟨?_, ?_, ?_, ?_⟩
  · have hfil : taskRowMatches user_id (pyStrip query) none none none =
        (fun t => t.user_id == user_id
          && specTaskMatches (pyStrip query) t) := by
      funext t
      simp only [taskRowMatches, specTaskMatches, hne, Bool.false_eq_true,
        if_false, Bool.and_true, hilike, hiopt]
    simp only [search_user_tasks, hq, Bool.false_eq_true, if_false,
      search_tasks, hfil, applyWindow]
  · have hfil : noteRowMatches user_id (pyStrip query) none =
        (fun n => n.user_id == user_id
          && specNoteMatches (pyStrip query) n) := by
      funext n
      simp only [noteRowMatches, specNoteMatches, hne, Bool.false_eq_true,
        if_false, Bool.and_true, hilike, hiopt]
    simp only [search_user_notes, hq, Bool.false_eq_true, if_false,
      search_notes, hfil, applyWindow]
  · have hfil : collectionRowMatches user_id (pyStrip query) none =
        (fun c => c.user_id == user_id
          && ciContains (pyStrip query) c.title) := by
      funext c
      simp only [collectionRowMatches, hne, Bool.false_eq_true,
        if_false, Bool.and_true, hilike]
    simp only [search_user_collections, hq, Bool.false_eq_true, if_false,
      search_collections, hfil, applyWindow]
  · have hfil : tagRowMatches user_id (pyStrip query) =
        (fun g => g.user_id == user_id
          && ciContains (pyStrip query) g.title) := by
      funext g
      simp only [tagRowMatches, hne, Bool.false_eq_true,
        if_false, Bool.and_true, hilike]
    simp only [search_user_tags, hq, Bool.false_eq_true, if_false,
      search_tags, hfil, applyWindow]

/-- Concrete witness for the amended C5. -/
theorem search_ci_contains_amended_witness :
    2 ≤ (pyStrip "proj").length ∧
    search_user_tasks [exTask0] 1 "proj" none none none none none =
      .ok (sortByDesc (fun t => t.updated_at) ([exTask0].filter
        (fun t => t.user_id == 1
          && specTaskMatches (pyStrip "proj") t))) :=
  ⟨by decide,
   (search_ci_contains_amended [exTask0] [] [] [] 1 "proj"
     (by decide) (by decide)).1⟩

/-! ## Claim C1 -/

/-- Claim C1: for every store, user, valid query and `limit_per_type`,
`global_search` succeeds with an envelope whose `total_count` is the sum
of the four unlimited per-entity result sizes while each per-type list in
the envelope is the first `limit_per_type` elements of that type's
ordered unlimited result — truncation never changes `total_count`. -/
theorem global_search_envelope (db : SearchDB) (user_id : Int)
    (query : String) (limit_per_type : Nat)
    (hlen : 2 ≤ (pyStrip query).length) :
    global_search db user_id query limit_per_type = .ok {
      query := pyStrip query
      results := {
        tasks := (search_tasks db.tasks user_id (pyStrip query)
          none none none none none).take limit_per_type
        notes := (search_notes db.notes user_id (pyStrip query)
          none none none).take limit_per_type
        collections := (search_collections db.collections user_id
          (pyStrip query) none none none).take limit_per_type
        tags := (search_tags db.tags user_id (pyStrip query)
          none none).take limit_per_type }
      total_count :=
        (search_tasks db.tasks user_id (pyStrip query)
          none none none none none).length
        + (search_notes db.notes user_id (pyStrip query)
            none none none).length
        + (search_collections db.collections user_id (pyStrip query)
            none none none).length
        + (search_tags db.tags user_id (pyStrip query) none none).length } := by
  have hq := queryTooShort_false hlen
  have hq' := queryTooShort_strip_false hlen
  simp only [global_search, hq, Bool.false_eq_true, if_false,
    search_user_tasks, search_user_notes, search_user_collections,
    search_user_tags, hq', pyStrip_idem, gather4]
  rfl

/-- Concrete witness for C1, realising the spec's worked example: three
tasks, two notes, no collections and one tag match `"proj"`, so
`total_count = 6` while each truncated list has at most one element. -/
theorem global_search_envelope_witness :
    2 ≤ (pyStrip "proj").length ∧
    global_search exDB 1 "proj" 1 = .ok {
      query := pyStrip "proj"
      results := {
        tasks := (search_tasks exDB.tasks 1 (pyStrip "proj")
          none none none none none).take 1
        notes := (search_notes exDB.notes 1 (pyStrip "proj")
          none none none).take 1
        collections := (search_collections exDB.collections 1
          (pyStrip "proj") none none none).take 1
        tags := (search_tags exDB.tags 1 (pyStrip "proj")
          none none).take 1 }
      total_count :=
        (search_tasks exDB.tasks 1 (pyStrip "proj")
          none none none none none).length
        + (search_notes exDB.notes 1 (pyStrip "proj")
            none none none).length
        + (search_collections exDB.collections 1 (pyStrip "proj")
            none none none).length
        + (search_tags exDB.tags 1 (pyStrip "proj") none none).length } ∧
    (search_tasks exDB.tasks 1 (pyStrip "proj")
      none none none none none).length = 3 ∧
    (search_notes exDB.notes 1 (pyStrip "proj") none none none).length = 2 ∧
    (search_collections exDB.collections 1 (pyStrip "proj")
      none none none).length = 0 ∧
    (search_tags exDB.tags 1 (pyStrip "proj") none none).length = 1 :=
  ⟨by decide, global_search_envelope exDB 1 "proj" 1 (by decide),
   by decide, by decide, by decide, by decide⟩

/-! ## Claim C8 -/

/-- Claim C8: `global_search` validates the query before any fan-out —
when the precondition fails it returns the validation error and its result
does not depend on the stores at all (no sub-search contributes) — and the
`asyncio.gather` join it fans out through is all-or-nothing: whenever any
one of the four sub-results is an error, the joined result is exactly that
failing sub-search's own error (the first failing one in argument order,
propagated unmodified), never a partial envelope. -/
theorem global_search_validation_and_join :
    (∀ (db db' : SearchDB) (user_id : Int) (query : String)
       (limit_per_type : Nat),
      queryTooShort query = true →
      global_search db user_id query limit_per_type =
        .error queryLengthError ∧
      global_search db user_id query limit_per_type =
        global_search db' user_id query limit_per_type) ∧
    (∀ (a : Except ApiError (List Task)) (b : Except ApiError (List Note))
       (c : Except ApiError (List Collection)) (d : Except ApiError (List Tag))
       (e : ApiError),
      (a = .error e → gather4 a b c d = .error e) ∧
      (∀ x, a = .ok x → b = .error e → gather4 a b c d = .error e) ∧
      (∀ x y, a = .ok x → b = .ok y → c = .error e →
        gather4 a b c d = .error e) ∧
      (∀ x y z, a = .ok x → b = .ok y → c = .ok z → d = .error e →
        gather4 a b c d = .error e)) := by
  constructor
  · intro db db' user_id query limit_per_type h
    constructor
    · simp [global_search, h]
    · simp [global_search, h]
  · intro a b c d e
    refine ⟨?_, ?_, ?_, ?_⟩
    · intro ha
      subst ha
      rfl
    · intro x ha hb
      subst ha
      subst hb
      rfl
    · intro x y ha hb hc
      subst ha
      subst hb
      subst hc
      rfl
    · intro x y z ha hb hc hd
      subst ha
      subst hb
      subst hc
      subst hd
      rfl

/-- Concrete witness for C8: a one-character query is rejected without
touching the stores, and a failing sub-search aborts the join with that
sub-search's own error — shown both for a failing first slot and for a
failing second slot behind a successful first one. -/
theorem global_search_validation_and_join_witness :
    queryTooShort "x" = true ∧
    global_search ⟨[], [], [], []⟩ 1 "x" 5 = .error queryLengthError ∧
    gather4
      (Except.error (ApiError.notFound "gone") : Except ApiError (List Task))
      (Except.ok ([] : List Note)) (Except.ok ([] : List Collection))
      (Except.ok ([] : List Tag)) = .error (ApiError.notFound "gone") ∧
    gather4 (Except.ok ([] : List Task))
      (Except.error (ApiError.notFound "missing") : Except ApiError (List Note))
      (Except.ok ([] : List Collection)) (Except.ok ([] : List Tag)) =
      .error (ApiError.notFound "missing") :=
  ⟨by decide,
   (global_search_validation_and_join.1 ⟨[], [], [], []⟩ ⟨[], [], [], []⟩
     1 "x" 5 (by decide)).1,
   (global_search_validation_and_join.2 _ _ _ _
     (ApiError.notFound "gone")).1 rfl,
   (global_search_validation_and_join.2 _ _ _ _
     (ApiError.notFound "missing")).2.1 [] rfl rfl⟩

end MgmtApp
